import Mathlib

/-!
# GPU-Direct RDMA setup sketch (`src/main.cpp`)

`main` of the repository talks to two external libraries (the CUDA runtime and
libibverbs).  The embedding makes the libraries an explicit environment `Env`
(one oracle per library function) and lets `main` return the ordered list of
library calls it performed together with its exit code.
-/

namespace GpuDirect

/-! ## Constants of the program and of the headers it includes -/

/-- Address of a non-null object handed out by the CUDA runtime or by libibverbs. -/
abbrev Handle := Nat

/-- `#define GPU_BUFFER_SIZE 1024` (main.cpp:6). -/
def GPU_BUFFER_SIZE : Nat := 1024

/-- `cudaSuccess` of `cuda_runtime.h`: the zero error code. -/
def cudaSuccess : Nat := 0

/-- `EXIT_SUCCESS` of `stdlib.h`. -/
def EXIT_SUCCESS : Int := 0

/-- `EXIT_FAILURE` of `stdlib.h` (glibc value). -/
def EXIT_FAILURE : Int := 1

/-- `IBV_ACCESS_LOCAL_WRITE` of `infiniband/verbs.h`. -/
def IBV_ACCESS_LOCAL_WRITE : Nat := 1

/-- `IBV_ACCESS_REMOTE_WRITE` of `infiniband/verbs.h`. -/
def IBV_ACCESS_REMOTE_WRITE : Nat := 2

/-- `IBV_ACCESS_REMOTE_READ` of `infiniband/verbs.h`. -/
def IBV_ACCESS_REMOTE_READ : Nat := 4

/-- `IBV_ACCESS_REMOTE_ATOMIC` of `infiniband/verbs.h`. -/
def IBV_ACCESS_REMOTE_ATOMIC : Nat := 8

/-- `IBV_ACCESS_MW_BIND` of `infiniband/verbs.h`. -/
def IBV_ACCESS_MW_BIND : Nat := 16

/-- The access bits of `enum ibv_access_flags` known to this development. -/
def accessBits : List Nat :=
  [IBV_ACCESS_LOCAL_WRITE, IBV_ACCESS_REMOTE_WRITE, IBV_ACCESS_REMOTE_READ,
   IBV_ACCESS_REMOTE_ATOMIC, IBV_ACCESS_MW_BIND]

/-- The set of access bits that are switched on in an access word. -/
def accessFlags (access : Nat) : List Nat :=
  accessBits.filter (fun b => access &&& b != 0)

/-! ## Data handed back by the libraries -/

/-- A non-null result of `ibv_get_device_list`: the address of the array and the
device pointers stored in it before the terminating NULL slot. -/
structure DeviceList where
  addr : Handle
  devices : List Handle
deriving DecidableEq, Repr

/-- The array as it sits in memory: every device, then the NULL terminator. -/
def DeviceList.slots (l : DeviceList) : List (Option Handle) :=
  l.devices.map some ++ [none]

/-- The C expression `dev_list[i]`; `none` is the NULL pointer. -/
def DeviceList.index (l : DeviceList) (i : Nat) : Option Handle :=
  l.slots.getD i none

/-- A non-null `struct ibv_mr *`: its address and the keys stored in it. -/
structure Mr where
  addr : Handle
  lkey : Nat
  rkey : Nat
deriving DecidableEq, Repr

/-- The two libraries as seen by `main`: what each function returns for the
arguments it is called with.  Pointer results are `Option` (`none` is NULL),
status results are the integers of the C API. -/
structure Env where
  /-- Result of `cudaMalloc(&d_buf, size)`: the error code and the value left in `d_buf`. -/
  cudaMalloc : Nat → Nat × Handle
  /-- Result of `ibv_get_device_list(NULL)`. -/
  ibv_get_device_list : Option DeviceList
  /-- Result of `ibv_open_device(dev)`. -/
  ibv_open_device : Option Handle → Option Handle
  /-- Result of `ibv_alloc_pd(context)`. -/
  ibv_alloc_pd : Handle → Option Handle
  /-- Result of `ibv_reg_mr(pd, addr, length, access)`. -/
  ibv_reg_mr : Handle → Handle → Nat → Nat → Option Mr
  /-- Status returned by `ibv_dereg_mr(mr)`. -/
  ibv_dereg_mr : Handle → Int
  /-- Status returned by `ibv_dealloc_pd(pd)`. -/
  ibv_dealloc_pd : Handle → Int
  /-- Status returned by `ibv_close_device(context)`. -/
  ibv_close_device : Handle → Int
  /-- Error code returned by `cudaFree(ptr)`. -/
  cudaFree : Handle → Nat

/-! ## The call trace -/

/-- One observable step of `main`: a library call with its arguments and its
result, a read through a handle, or a message written to a stream. -/
inductive Event where
  | cudaMalloc (size : Nat) (err : Nat) (ptr : Handle)
  | ibv_get_device_list (res : Option DeviceList)
  /-- The read `dev_list[i]`. -/
  | load_dev_list (list : Handle) (i : Nat)
  | ibv_open_device (dev : Option Handle) (res : Option Handle)
  | ibv_alloc_pd (context : Handle) (res : Option Handle)
  | ibv_reg_mr (pd : Handle) (addr : Handle) (length : Nat) (access : Nat) (res : Option Mr)
  /-- The read `mr->rkey`. -/
  | load_rkey (mr : Handle)
  | ibv_dereg_mr (mr : Handle) (ret : Int)
  | ibv_dealloc_pd (pd : Handle) (ret : Int)
  | ibv_close_device (context : Handle) (ret : Int)
  | ibv_free_device_list (list : Handle)
  | cudaFree (ptr : Handle) (err : Nat)
  /-- The call `cudaGetErrorString(err)`, whose result is only printed. -/
  | cudaGetErrorString (err : Nat)
  /-- A diagnostic on stderr: `fprintf(stderr, ...)` with its format string, or `perror`. -/
  | stderr (msg : String)
  /-- The success message on stdout with its two arguments. -/
  | printf (rkey : Nat) (d_buf : Handle)
deriving DecidableEq, Repr

/-- The five kinds of resource `main` acquires, in acquisition order. -/
inductive Resource where
  | gpu_buffer
  | device_list
  | context
  | pd
  | mr
deriving DecidableEq, Repr

/-- The setup step an event is, if it is one (whatever its outcome). -/
def Event.attempts : Event → Option Resource
  | .cudaMalloc _ _ _ => some .gpu_buffer
  | .ibv_get_device_list _ => some .device_list
  | .ibv_open_device _ _ => some .context
  | .ibv_alloc_pd _ _ => some .pd
  | .ibv_reg_mr _ _ _ _ _ => some .mr
  | _ => none

/-- The resource an event brought into existence: a setup call that succeeded. -/
def Event.created : Event → Option (Resource × Handle)
  | .cudaMalloc _ err ptr => if err = cudaSuccess then some (.gpu_buffer, ptr) else none
  | .ibv_get_device_list (some l) => some (.device_list, l.addr)
  | .ibv_open_device _ (some c) => some (.context, c)
  | .ibv_alloc_pd _ (some p) => some (.pd, p)
  | .ibv_reg_mr _ _ _ _ (some m) => some (.mr, m.addr)
  | _ => none

/-- A setup call that reported failure. -/
def Event.failedSetup (e : Event) : Bool :=
  e.attempts.isSome && e.created.isNone

/-- The resource a release call is applied to. -/
def Event.released : Event → Option (Resource × Handle)
  | .ibv_dereg_mr m _ => some (.mr, m)
  | .ibv_dealloc_pd p _ => some (.pd, p)
  | .ibv_close_device c _ => some (.context, c)
  | .ibv_free_device_list l => some (.device_list, l)
  | .cudaFree p _ => some (.gpu_buffer, p)
  | _ => none

/-- A release call whose returned status reports an error. -/
def Event.releaseFailed : Event → Bool
  | .ibv_dereg_mr _ ret => ret != 0
  | .ibv_dealloc_pd _ ret => ret != 0
  | .ibv_close_device _ ret => ret != 0
  | .cudaFree _ err => err != cudaSuccess
  | _ => false

/-- The calls that report a failure: the lookup of the CUDA error text and
the message written to stderr.  The success message on stdout is not one. -/
def Event.isDiagnostic : Event → Bool
  | .cudaGetErrorString _ => true
  | .stderr _ => true
  | _ => false

/-- What one run of `main` does: its calls in order, and the value it returns. -/
structure Run where
  trace : List Event
  exit : Int
deriving DecidableEq, Repr

/-! ## The program -/

/-- `int main(int argc, char *argv[])` of main.cpp, lines 8 to 88. -/
def main (env : Env) : Run :=
  -- Step 1 (lines 10-15)
  let r := env.cudaMalloc GPU_BUFFER_SIZE
  let cuda_err := r.1
  let d_buf := r.2
  let t1 := [Event.cudaMalloc GPU_BUFFER_SIZE cuda_err d_buf]
  if cuda_err ≠ cudaSuccess then
    ⟨t1 ++ [.cudaGetErrorString cuda_err,
            .stderr "cudaMalloc failed: %s\n"], EXIT_FAILURE⟩
  else
    -- Step 2 (lines 19-24)
    match env.ibv_get_device_list with
    | none =>
      ⟨t1 ++ [.ibv_get_device_list none,
              .stderr "Failed to get IB devices list",
              .cudaFree d_buf (env.cudaFree d_buf)], EXIT_FAILURE⟩
    | some dev_list =>
      -- lines 26-32
      let dev := dev_list.index 0
      let t2 := t1 ++ [.ibv_get_device_list (some dev_list), .load_dev_list dev_list.addr 0]
      match env.ibv_open_device dev with
      | none =>
        ⟨t2 ++ [.ibv_open_device dev none,
                .stderr "Couldn't open device\n",
                .ibv_free_device_list dev_list.addr,
                .cudaFree d_buf (env.cudaFree d_buf)], EXIT_FAILURE⟩
      | some context =>
        -- lines 34-41
        let t3 := t2 ++ [.ibv_open_device dev (some context)]
        match env.ibv_alloc_pd context with
        | none =>
          ⟨t3 ++ [.ibv_alloc_pd context none,
                  .stderr "Couldn't allocate PD\n",
                  .ibv_close_device context (env.ibv_close_device context),
                  .ibv_free_device_list dev_list.addr,
                  .cudaFree d_buf (env.cudaFree d_buf)], EXIT_FAILURE⟩
        | some pd =>
          -- Step 3 (lines 45-54)
          let t4 := t3 ++ [.ibv_alloc_pd context (some pd)]
          let access := IBV_ACCESS_LOCAL_WRITE ||| IBV_ACCESS_REMOTE_WRITE
          match env.ibv_reg_mr pd d_buf GPU_BUFFER_SIZE access with
          | none =>
            ⟨t4 ++ [.ibv_reg_mr pd d_buf GPU_BUFFER_SIZE access none,
                    .stderr "Couldn't register MR\n",
                    .ibv_dealloc_pd pd (env.ibv_dealloc_pd pd),
                    .ibv_close_device context (env.ibv_close_device context),
                    .ibv_free_device_list dev_list.addr,
                    .cudaFree d_buf (env.cudaFree d_buf)], EXIT_FAILURE⟩
          | some mr =>
            -- lines 77-87
            ⟨t4 ++ [.ibv_reg_mr pd d_buf GPU_BUFFER_SIZE access (some mr),
                    .load_rkey mr.addr,
                    .printf mr.rkey d_buf,
                    .ibv_dereg_mr mr.addr (env.ibv_dereg_mr mr.addr),
                    .ibv_dealloc_pd pd (env.ibv_dealloc_pd pd),
                    .ibv_close_device context (env.ibv_close_device context),
                    .ibv_free_device_list dev_list.addr,
                    .cudaFree d_buf (env.cudaFree d_buf)], EXIT_SUCCESS⟩

/-! ## Derived views of a trace -/

/-- The resources created along a trace, in creation order. -/
def creations (t : List Event) : List (Resource × Handle) :=
  t.filterMap Event.created

/-- The release calls along a trace, in call order. -/
def releases (t : List Event) : List (Resource × Handle) :=
  t.filterMap Event.released

/-- How many release calls of a trace are applied to the given resource. -/
def timesReleased (t : List Event) (p : Resource × Handle) : Nat :=
  (t.filter (fun e => e.released = some p)).length

/-- The kinds of the resources released along a trace, in call order. -/
def releaseKinds (t : List Event) : List Resource :=
  (releases t).map Prod.fst

/-- Every release of a resource of kind `a` in the trace comes before every
release of a resource of kind `b`. -/
def releasedBefore (a b : Resource) (t : List Event) : Prop :=
  ∀ i j : Nat, (releaseKinds t)[i]? = some a → (releaseKinds t)[j]? = some b → i < j

/-- The setup steps invoked along a trace, in call order. -/
def setupCalls (t : List Event) : List Resource :=
  t.filterMap Event.attempts

/-- The property `P pre e post` at every position of `t`, where `acc` is what
came before `t`. -/
def eachSplit (P : List Event → Event → List Event → Prop) : List Event → List Event → Prop
  | _, [] => True
  | acc, e :: post => P acc e post ∧ eachSplit P (acc ++ [e]) post

/-- The same setup behaviour with other results for the release calls. -/
def Env.withReleaseResults (env : Env) (d p c : Handle → Int) (f : Handle → Nat) : Env where
  cudaMalloc := env.cudaMalloc
  ibv_get_device_list := env.ibv_get_device_list
  ibv_open_device := env.ibv_open_device
  ibv_alloc_pd := env.ibv_alloc_pd
  ibv_reg_mr := env.ibv_reg_mr
  ibv_dereg_mr := d
  ibv_dealloc_pd := p
  ibv_close_device := c
  cudaFree := f

/-- An environment in which every call succeeds and one device is present. -/
def envOk : Env where
  cudaMalloc := fun _ => (0, 4096)
  ibv_get_device_list := some ⟨100, [200]⟩
  ibv_open_device := fun _ => some 300
  ibv_alloc_pd := fun _ => some 400
  ibv_reg_mr := fun _ _ _ _ => some ⟨500, 17, 18⟩
  ibv_dereg_mr := fun _ => 0
  ibv_dealloc_pd := fun _ => 0
  ibv_close_device := fun _ => 0
  cudaFree := fun _ => 0

/-- An environment in which setup succeeds and every release call reports an
error (errno values for the verbs calls, a CUDA error code for `cudaFree`). -/
def envReleaseFails : Env where
  cudaMalloc := fun _ => (0, 4096)
  ibv_get_device_list := some ⟨100, [200]⟩
  ibv_open_device := fun _ => some 300
  ibv_alloc_pd := fun _ => some 400
  ibv_reg_mr := fun _ _ _ _ => some ⟨500, 17, 18⟩
  ibv_dereg_mr := fun _ => 22
  ibv_dealloc_pd := fun _ => 16
  ibv_close_device := fun _ => -1
  cudaFree := fun _ => 1

/-- An environment in which setup succeeds and only `ibv_dereg_mr` reports an
error (`EINVAL`). -/
def envDeregFails : Env where
  cudaMalloc := fun _ => (0, 4096)
  ibv_get_device_list := some ⟨100, [200]⟩
  ibv_open_device := fun _ => some 300
  ibv_alloc_pd := fun _ => some 400
  ibv_reg_mr := fun _ _ _ _ => some ⟨500, 17, 18⟩
  ibv_dereg_mr := fun _ => 22
  ibv_dealloc_pd := fun _ => 0
  ibv_close_device := fun _ => 0
  cudaFree := fun _ => 0

/-- An environment in which the GPU allocation fails with
`cudaErrorMemoryAllocation` (2) and leaves `d_buf` NULL. -/
def envMallocFails : Env where
  cudaMalloc := fun _ => (2, 0)
  ibv_get_device_list := some ⟨100, [200]⟩
  ibv_open_device := fun _ => some 300
  ibv_alloc_pd := fun _ => some 400
  ibv_reg_mr := fun _ _ _ _ => some ⟨500, 17, 18⟩
  ibv_dereg_mr := fun _ => 0
  ibv_dealloc_pd := fun _ => 0
  ibv_close_device := fun _ => 0
  cudaFree := fun _ => 0

/-- An environment in which the protection domain cannot be allocated. -/
def envPdFails : Env where
  cudaMalloc := fun _ => (0, 4096)
  ibv_get_device_list := some ⟨100, [200]⟩
  ibv_open_device := fun _ => some 300
  ibv_alloc_pd := fun _ => none
  ibv_reg_mr := fun _ _ _ _ => some ⟨500, 17, 18⟩
  ibv_dereg_mr := fun _ => 0
  ibv_dealloc_pd := fun _ => 0
  ibv_close_device := fun _ => 0
  cudaFree := fun _ => 0

/-- An environment with a fabric library but no adapter: device discovery
returns a non-null array whose first slot is the NULL terminator, and the
library opens no device for a NULL argument. -/
def envNoDevice : Env where
  cudaMalloc := fun _ => (0, 4096)
  ibv_get_device_list := some ⟨100, []⟩
  ibv_open_device := fun dev => dev.map (fun _ => 300)
  ibv_alloc_pd := fun _ => some 400
  ibv_reg_mr := fun _ _ _ _ => some ⟨500, 17, 18⟩
  ibv_dereg_mr := fun _ => 0
  ibv_dealloc_pd := fun _ => 0
  ibv_close_device := fun _ => 0
  cudaFree := fun _ => 0

/-! ## Liveness of handles -/

/-- The resources that exist after the events `pre`: created and not yet
handed to a release call. -/
def liveAfter (pre : List Event) : List (Resource × Handle) :=
  (creations pre).filter (fun p => p ∉ releases pre)

/-- The handles an event passes to a library or reads through; each must
denote an existing resource when the event happens. -/
def Event.usesHandles : Event → List (Resource × Handle)
  | .load_dev_list l _ => [(.device_list, l)]
  | .ibv_alloc_pd c _ => [(.context, c)]
  | .ibv_reg_mr p a _ _ _ => [(.pd, p), (.gpu_buffer, a)]
  | .load_rkey m => [(.mr, m)]
  | .ibv_dereg_mr m _ => [(.mr, m)]
  | .ibv_dealloc_pd p _ => [(.pd, p)]
  | .ibv_close_device c _ => [(.context, c)]
  | .ibv_free_device_list l => [(.device_list, l)]
  | .cudaFree p _ => [(.gpu_buffer, p)]
  | _ => []

/-- The kinds of resource an event depends on without naming a handle of that
kind: the device given to `ibv_open_device` belongs to a device list, which
must not have been freed. -/
def Event.usesKinds : Event → List Resource
  | .ibv_open_device _ _ => [.device_list]
  | _ => []

/-! ## Queue pair and posting

`main` stops after memory registration; creating the queue pair, driving it
to the ready state and posting work requests appear only as commented
pseudocode (main.cpp:56-75).  The definitions of this section are therefore
not translated from code. -/

/-- Modelled from the spec: the queue-pair states of section 3 (the program
creates no queue pair). -/
inductive QpState where
  | RESET
  | INIT
  | READY_TO_RECEIVE
  | READY_TO_SEND
  | ERROR
deriving DecidableEq, Repr

/-- Modelled from the spec: the MemoryRegistration record of section 3. -/
structure MemoryRegistration where
  local_key : Nat
  remote_key : Nat
  address : Nat
  length : Nat
deriving DecidableEq, Repr

/-- Modelled from the spec: the ConnectionRecord of section 3 and section 6. -/
structure ConnectionRecord where
  qp_num : Nat
  fabric_address : Nat
  psn : Nat
  remote_key : Nat
  remote_address : Nat
  remote_length : Nat
deriving DecidableEq, Repr

/-- Modelled from the spec: the WorkRequest of section 3, as handed to the adapter. -/
structure WorkRequest where
  request_id : Nat
  registration : MemoryRegistration
  local_offset : Nat
  length : Nat
  remote : ConnectionRecord
deriving DecidableEq, Repr

/-- Modelled from the spec: a queue pair with its state, its configured depth
and the work requests handed to the adapter and not yet completed. -/
structure QueuePair where
  qp_num : Nat
  state : QpState
  depth : Nat
  outstanding : List WorkRequest
deriving DecidableEq, Repr

/-- Modelled from the spec: the reasons for which `post_write` fails (section 4.4). -/
inductive PostError where
  | not_ready_to_send
  | exceeds_local_registration
  | exceeds_remote_length
  | queue_full
deriving DecidableEq, Repr

/-- Modelled from the spec: `post_write` of section 4.4, absent from the
program.  It fails if the queue pair is not READY_TO_SEND, if the length
exceeds the local registration bound or the peer-advertised remote length, or
if the outstanding-request count would exceed the configured depth; otherwise
the work request is handed to the adapter.  The result is the outcome together
with the queue pair afterwards. -/
def post_write (qp : QueuePair) (request_id : Nat) (local_registration : MemoryRegistration)
    (local_offset length : Nat) (remote : ConnectionRecord) :
    Except PostError Unit × QueuePair :=
  if qp.state ≠ .READY_TO_SEND then
    (.error .not_ready_to_send, qp)
  else if local_offset + length > local_registration.length then
    (.error .exceeds_local_registration, qp)
  else if length > remote.remote_length then
    (.error .exceeds_remote_length, qp)
  else if qp.outstanding.length + 1 > qp.depth then
    (.error .queue_full, qp)
  else
    (.ok (), ⟨qp.qp_num, qp.state, qp.depth,
      qp.outstanding ++ [⟨request_id, local_registration, local_offset, length, remote⟩]⟩)

/-- The five resource kinds in acquisition order. -/
def acquisitionOrder : List Resource :=
  [.gpu_buffer, .device_list, .context, .pd, .mr]

/-! ## Shape of the runs -/

/-- The six shapes a run can have, one per exit point of `main`; every handle
and status in the trace is the one the environment returned. -/
theorem main_cases (env : Env) :
    (∃ err p, err ≠ cudaSuccess ∧ env.cudaMalloc GPU_BUFFER_SIZE = (err, p) ∧
      main env = ⟨[.cudaMalloc GPU_BUFFER_SIZE err p,
                   .cudaGetErrorString err,
                   .stderr "cudaMalloc failed: %s\n"], EXIT_FAILURE⟩) ∨
    (∃ b f, env.cudaMalloc GPU_BUFFER_SIZE = (cudaSuccess, b) ∧
      main env = ⟨[.cudaMalloc GPU_BUFFER_SIZE cudaSuccess b,
                   .ibv_get_device_list none,
                   .stderr "Failed to get IB devices list",
                   .cudaFree b f], EXIT_FAILURE⟩) ∨
    (∃ b l f, env.cudaMalloc GPU_BUFFER_SIZE = (cudaSuccess, b) ∧
      env.ibv_get_device_list = some l ∧
      main env = ⟨[.cudaMalloc GPU_BUFFER_SIZE cudaSuccess b,
                   .ibv_get_device_list (some l),
                   .load_dev_list l.addr 0,
                   .ibv_open_device (l.index 0) none,
                   .stderr "Couldn't open device\n",
                   .ibv_free_device_list l.addr,
                   .cudaFree b f], EXIT_FAILURE⟩) ∨
    (∃ b l c rc f, env.cudaMalloc GPU_BUFFER_SIZE = (cudaSuccess, b) ∧
      env.ibv_get_device_list = some l ∧
      main env = ⟨[.cudaMalloc GPU_BUFFER_SIZE cudaSuccess b,
                   .ibv_get_device_list (some l),
                   .load_dev_list l.addr 0,
                   .ibv_open_device (l.index 0) (some c),
                   .ibv_alloc_pd c none,
                   .stderr "Couldn't allocate PD\n",
                   .ibv_close_device c rc,
                   .ibv_free_device_list l.addr,
                   .cudaFree b f], EXIT_FAILURE⟩) ∨
    (∃ b l c p rp rc f, env.cudaMalloc GPU_BUFFER_SIZE = (cudaSuccess, b) ∧
      env.ibv_get_device_list = some l ∧
      main env = ⟨[.cudaMalloc GPU_BUFFER_SIZE cudaSuccess b,
                   .ibv_get_device_list (some l),
                   .load_dev_list l.addr 0,
                   .ibv_open_device (l.index 0) (some c),
                   .ibv_alloc_pd c (some p),
                   .ibv_reg_mr p b GPU_BUFFER_SIZE
                     (IBV_ACCESS_LOCAL_WRITE ||| IBV_ACCESS_REMOTE_WRITE) none,
                   .stderr "Couldn't register MR\n",
                   .ibv_dealloc_pd p rp,
                   .ibv_close_device c rc,
                   .ibv_free_device_list l.addr,
                   .cudaFree b f], EXIT_FAILURE⟩) ∨
    (∃ b l c p m, env.cudaMalloc GPU_BUFFER_SIZE = (cudaSuccess, b) ∧
      env.ibv_get_device_list = some l ∧
      main env = ⟨[.cudaMalloc GPU_BUFFER_SIZE cudaSuccess b,
                   .ibv_get_device_list (some l),
                   .load_dev_list l.addr 0,
                   .ibv_open_device (l.index 0) (some c),
                   .ibv_alloc_pd c (some p),
                   .ibv_reg_mr p b GPU_BUFFER_SIZE
                     (IBV_ACCESS_LOCAL_WRITE ||| IBV_ACCESS_REMOTE_WRITE) (some m),
                   .load_rkey m.addr,
                   .printf m.rkey b,
                   .ibv_dereg_mr m.addr (env.ibv_dereg_mr m.addr),
                   .ibv_dealloc_pd p (env.ibv_dealloc_pd p),
                   .ibv_close_device c (env.ibv_close_device c),
                   .ibv_free_device_list l.addr,
                   .cudaFree b (env.cudaFree b)], EXIT_SUCCESS⟩) := by
  unfold main
  simp only []
  rcases hm : env.cudaMalloc GPU_BUFFER_SIZE with ⟨err, b⟩
  by_cases herr : err = cudaSuccess
  · subst herr
    right
    cases hl : env.ibv_get_device_list with
    | none => left; exact ⟨b, env.cudaFree b, rfl, by simp⟩
    | some l =>
      right
      cases hc : env.ibv_open_device (l.index 0) with
      | none => left; exact ⟨b, l, env.cudaFree b, rfl, rfl, by simp [hc]⟩
      | some c =>
        right
        cases hp : env.ibv_alloc_pd c with
        | none =>
          left
          exact ⟨b, l, c, env.ibv_close_device c, env.cudaFree b, rfl, rfl, by simp [hc, hp]⟩
        | some p =>
          right
          cases hr : env.ibv_reg_mr p b GPU_BUFFER_SIZE
              (IBV_ACCESS_LOCAL_WRITE ||| IBV_ACCESS_REMOTE_WRITE) with
          | none =>
            left
            exact ⟨b, l, c, p, env.ibv_dealloc_pd p, env.ibv_close_device c, env.cudaFree b,
              rfl, rfl, by simp [hc, hp, hr]⟩
          | some m =>
            right
            exact ⟨b, l, c, p, m, rfl, rfl, by simp [hc, hp, hr]⟩
  · left
    exact ⟨err, b, herr, rfl, by simp [herr]⟩

theorem eachSplit_sound {P : List Event → Event → List Event → Prop} :
    ∀ (t acc : List Event), eachSplit P acc t →
      ∀ pre e post, t = pre ++ e :: post → P (acc ++ pre) e post := by
  intro t
  induction t with
  | nil => intro acc _ pre e post h; simp at h
  | cons x xs ih =>
    intro acc hs pre e post h
    obtain ⟨hx, hrest⟩ := hs
    cases pre with
    | nil =>
      simp only [List.nil_append, List.cons.injEq] at h
      obtain ⟨rfl, rfl⟩ := h
      simpa using hx
    | cons p pre' =>
      simp only [List.cons_append, List.cons.injEq] at h
      obtain ⟨rfl, rfl⟩ := h
      have := ih (acc ++ [x]) hrest pre' e post rfl
      simpa using this

theorem releases_eq_reverse_creations (env : Env) :
    releases (main env).trace = (creations (main env).trace).reverse := by
  rcases main_cases env with ⟨_, _, he, _, h⟩ | ⟨_, _, _, h⟩ | ⟨_, _, _, _, _, h⟩ |
    ⟨_, _, _, _, _, _, _, h⟩ | ⟨_, _, _, _, _, _, _, _, _, h⟩ | ⟨_, _, _, _, _, _, _, h⟩ <;>
  simp [h, releases, creations, Event.created, Event.released, *]

theorem creations_kinds_prefix (env : Env) :
    (creations (main env).trace).map Prod.fst <+: acquisitionOrder := by
  rcases main_cases env with ⟨_, _, he, _, h⟩ | ⟨_, _, _, h⟩ | ⟨_, _, _, _, _, h⟩ |
    ⟨_, _, _, _, _, _, _, h⟩ | ⟨_, _, _, _, _, _, _, _, _, h⟩ | ⟨_, _, _, _, _, _, _, h⟩ <;>
  simp [h, creations, Event.created, acquisitionOrder, *]

/-- C1: on every run of `main`, whatever the setup calls return, a resource
(kind and handle) that a setup call created is the argument of exactly one
release call, and a resource that no setup call of the run created (the call
failed or was never reached) is the argument of no release call. -/
theorem main_releases_created_exactly_once (env : Env) (r : Resource) (h : Handle) :
    ((r, h) ∈ creations (main env).trace → timesReleased (main env).trace (r, h) = 1) ∧
    ((r, h) ∉ creations (main env).trace → timesReleased (main env).trace (r, h) = 0) := by
  rcases main_cases env with ⟨_, _, he, _, hm⟩ | ⟨_, _, _, hm⟩ | ⟨_, _, _, _, _, hm⟩ |
    ⟨_, _, _, _, _, _, _, hm⟩ | ⟨_, _, _, _, _, _, _, _, _, hm⟩ | ⟨_, _, _, _, _, _, _, hm⟩ <;>
  cases r <;>
  simp [hm, timesReleased, creations, Event.created, Event.released, List.filter_cons, *] <;>
  constructor <;> intro hh <;>
  first | (subst hh; simp) | (intro h2; exact hh h2.symm)

/-- The release kinds of a run are the tail of the full teardown sequence
that matches what was created. -/
theorem releaseKinds_cases (env : Env) :
    releaseKinds (main env).trace ∈
      [[], [.gpu_buffer], [.device_list, .gpu_buffer], [.context, .device_list, .gpu_buffer],
       [.pd, .context, .device_list, .gpu_buffer],
       [.mr, .pd, .context, .device_list, .gpu_buffer]] := by
  rcases main_cases env with ⟨_, _, he, _, h⟩ | ⟨_, _, _, h⟩ | ⟨_, _, _, _, _, h⟩ |
    ⟨_, _, _, _, _, _, _, h⟩ | ⟨_, _, _, _, _, _, _, _, _, h⟩ | ⟨_, _, _, _, _, _, _, h⟩ <;>
  simp [h, releaseKinds, releases, Event.released]

theorem before_of_pairwise {l : List Resource} {a b : Resource} (hab : a ≠ b)
    (h : l.Pairwise (fun x y => ¬ (x = b ∧ y = a))) :
    ∀ i j : Nat, l[i]? = some a → l[j]? = some b → i < j := by
  intro i j hi hj
  by_contra hlt
  rcases Nat.lt_or_ge j i with hji | hji
  · obtain ⟨hi', hia⟩ := List.getElem?_eq_some.mp hi
    obtain ⟨hj', hjb⟩ := List.getElem?_eq_some.mp hj
    have := (List.pairwise_iff_getElem.mp h) j i hj' hi' hji
    exact this ⟨hjb, hia⟩
  · have hij : i = j := by omega
    subst hij
    rw [hi] at hj
    exact hab (Option.some.inj hj)

/-- C2: on every run of `main` the releases that are performed follow the
reverse of the acquisition order: the memory registration is deregistered
before the protection domain is deallocated, the protection domain before the
device context is closed, the device context before the device list is freed,
and the memory registration before the GPU buffer is freed.  As a whole, the
sequence of released resources is the reverse of the sequence of created ones,
which follows the acquisition order. -/
theorem main_releases_in_reverse_order (env : Env) :
    releasedBefore .mr .pd (main env).trace ∧
    releasedBefore .pd .context (main env).trace ∧
    releasedBefore .context .device_list (main env).trace ∧
    releasedBefore .mr .gpu_buffer (main env).trace ∧
    releases (main env).trace = (creations (main env).trace).reverse ∧
    (creations (main env).trace).map Prod.fst <+: acquisitionOrder := by
  have hk := releaseKinds_cases env
  refine ⟨?_, ?_, ?_, ?_, releases_eq_reverse_creations env, creations_kinds_prefix env⟩ <;>
  · unfold releasedBefore
    apply before_of_pairwise (by decide)
    simp only [List.mem_cons, List.mem_singleton, List.not_mem_nil, or_false] at hk
    rcases hk with h | h | h | h | h | h <;> rw [h] <;> decide

/-- C3: `main` returns 0 exactly on the runs in which the five setup steps
(GPU allocation, device list, device open, protection domain, registration)
all succeeded, and on those runs the full teardown has been performed; a run
in which some setup step failed returns a non-zero code, and a non-zero code
is only returned when a setup step failed. -/
theorem main_exit_zero_iff_setup_succeeded (env : Env) :
    ((main env).exit = 0 ↔
      (creations (main env).trace).map Prod.fst = acquisitionOrder) ∧
    ((main env).exit = 0 →
      releaseKinds (main env).trace = acquisitionOrder.reverse) ∧
    ((∃ e ∈ (main env).trace, e.failedSetup = true) ↔ (main env).exit ≠ 0) := by
  rcases main_cases env with ⟨_, _, he, _, h⟩ | ⟨_, _, _, h⟩ | ⟨_, _, _, _, _, h⟩ |
    ⟨_, _, _, _, _, _, _, h⟩ | ⟨_, _, _, _, _, _, _, _, _, h⟩ | ⟨_, _, _, _, _, _, _, h⟩ <;>
  simp [h, creations, releaseKinds, releases, Event.created, Event.released, Event.failedSetup,
    Event.attempts, acquisitionOrder, EXIT_FAILURE, EXIT_SUCCESS, *]

theorem exit_ne_zero_of_failedSetup (env : Env) (e : Event) (hmem : e ∈ (main env).trace)
    (hf : e.failedSetup = true) : (main env).exit ≠ 0 := by
  rcases main_cases env with ⟨_, _, he, _, h⟩ | ⟨_, _, _, h⟩ | ⟨_, _, _, _, _, h⟩ |
    ⟨_, _, _, _, _, _, _, h⟩ | ⟨_, _, _, _, _, _, _, _, _, h⟩ | ⟨_, _, _, _, _, _, _, h⟩ <;>
  rw [h] at hmem ⊢
  iterate 5 simp [EXIT_FAILURE]
  exfalso
  simp at hmem
  rcases hmem with rfl | rfl | rfl | rfl | rfl | rfl | rfl | rfl | rfl | rfl | rfl | rfl | rfl <;>
  simp [Event.failedSetup, Event.attempts, Event.created] at hf

theorem after_failure_only_releases (env : Env) :
    eachSplit (fun pre e post => e.failedSetup = true →
      ∀ x ∈ post, x.attempts = none ∧
        (x.isDiagnostic = true ∨ ∃ p ∈ creations pre, x.released = some p)) [] (main env).trace := by
  rcases main_cases env with ⟨_, _, he, _, h⟩ | ⟨_, _, _, h⟩ | ⟨_, _, _, _, _, h⟩ |
    ⟨_, _, _, _, _, _, _, h⟩ | ⟨_, _, _, _, _, _, _, _, _, h⟩ | ⟨_, _, _, _, _, _, _, h⟩ <;>
  rw [h] <;> dsimp only <;>
  simp only [eachSplit, List.nil_append, List.cons_append, and_true] <;>
  and_intros <;> intro hf <;>
  first
  | (simp [Event.failedSetup, Event.attempts, Event.created] at hf; done)
  | (simp only [List.forall_mem_cons]
     simp [Event.attempts, Event.isDiagnostic, Event.released]
     try simp [creations, Event.created])

/-- C4 (as stated, refuted): when `cudaMalloc` fails, the calls `main` makes
after the failure are `cudaGetErrorString` and `fprintf`, and neither is the
release of a resource (none was created); so it is not the case that every
call made after a failed setup step is a release of an already-created
resource. -/
theorem main_calls_diagnostics_after_failure :
    ((main envMallocFails).trace =
        [.cudaMalloc 1024 2 0, .cudaGetErrorString 2, .stderr "cudaMalloc failed: %s\n"] ∧
      (Event.cudaMalloc 1024 2 0).failedSetup = true ∧
      (Event.cudaGetErrorString 2).released = none ∧
      (Event.stderr "cudaMalloc failed: %s\n").released = none) ∧
    ¬ (∀ (env : Env) (pre : List Event) (e : Event) (post : List Event),
        (main env).trace = pre ++ e :: post → e.failedSetup = true →
          ∀ x ∈ post, ∃ p ∈ creations pre, x.released = some p) := by
  refine ⟨by decide, fun h => ?_⟩
  obtain ⟨p, hp, _⟩ := h envMallocFails [] (.cudaMalloc 1024 2 0)
    [.cudaGetErrorString 2, .stderr "cudaMalloc failed: %s\n"] (by decide) (by decide)
    (.cudaGetErrorString 2) (by decide)
  simp [creations] at hp

/-- C4 (amended): in every run each setup call appears at most once in the
call trace; and when a setup call of `main` fails, nothing that follows it in
the trace is a setup call (neither the failed step again nor a later step):
each later call is either a diagnostic call reporting the failure
(`cudaGetErrorString`, `fprintf(stderr, ...)`, `perror`) or the release of a
resource created before the failure, and `main` returns a non-zero code. -/
theorem main_abandons_setup_after_failure (env : Env) :
    (setupCalls (main env).trace).Nodup ∧
    ∀ pre e post, (main env).trace = pre ++ e :: post → e.failedSetup = true →
      (∀ x ∈ post, x.attempts = none ∧
        (x.isDiagnostic = true ∨ ∃ p ∈ creations pre, x.released = some p)) ∧
      (main env).exit ≠ 0 := by
  constructor
  · rcases main_cases env with ⟨_, _, he, _, h⟩ | ⟨_, _, _, h⟩ | ⟨_, _, _, _, _, h⟩ |
      ⟨_, _, _, _, _, _, _, h⟩ | ⟨_, _, _, _, _, _, _, _, _, h⟩ | ⟨_, _, _, _, _, _, _, h⟩ <;>
    simp [h, setupCalls, Event.attempts]
  · intro pre e post hsplit hfail
    have key := eachSplit_sound _ [] (after_failure_only_releases env) pre e post hsplit
    simp only [List.nil_append] at key
    refine ⟨key hfail, exit_ne_zero_of_failedSetup env e ?_ hfail⟩
    rw [hsplit]
    simp

theorem main_abandons_setup_after_failure_witness :
    (Event.ibv_alloc_pd 300 none).failedSetup = true ∧
    (∀ x ∈ [Event.stderr "Couldn't allocate PD\n", .ibv_close_device 300 0,
        .ibv_free_device_list 100, .cudaFree 4096 0],
      x.attempts = none ∧
        (x.isDiagnostic = true ∨
          ∃ p ∈ creations [.cudaMalloc 1024 0 4096, .ibv_get_device_list (some ⟨100, [200]⟩),
            .load_dev_list 100 0, .ibv_open_device (some 200) (some 300)],
            x.released = some p)) ∧
    (main envPdFails).exit ≠ 0 :=
  ⟨by decide,
    (main_abandons_setup_after_failure envPdFails).2
      [.cudaMalloc 1024 0 4096, .ibv_get_device_list (some ⟨100, [200]⟩),
        .load_dev_list 100 0, .ibv_open_device (some 200) (some 300)]
      (.ibv_alloc_pd 300 none)
      [.stderr "Couldn't allocate PD\n", .ibv_close_device 300 0,
        .ibv_free_device_list 100, .cudaFree 4096 0]
      (by decide) (by decide)⟩

theorem creations_withReleaseResults (env : Env) (d p c : Handle → Int) (f : Handle → Nat) :
    creations (main (env.withReleaseResults d p c f)).trace = creations (main env).trace := by
  simp only [main, Env.withReleaseResults]
  split
  · simp [creations, Event.created, List.filterMap_cons]
  · split
    · simp [creations, Event.created, List.filterMap_cons]
    · split
      · simp [creations, Event.created, List.filterMap_cons]
      · split
        · simp [creations, Event.created, List.filterMap_cons]
        · split <;> simp [creations, Event.created, List.filterMap_cons]

/-- C5: the release calls `main` performs do not depend on what the release
calls return: replacing the results of `ibv_dereg_mr`, `ibv_dealloc_pd`,
`ibv_close_device` and `cudaFree` by any others (failures included) leaves the
sequence of release calls unchanged, and that sequence always covers every
resource that was created. -/
theorem main_releases_independent_of_release_results (env : Env) (d p c : Handle → Int)
    (f : Handle → Nat) :
    releases (main (env.withReleaseResults d p c f)).trace = releases (main env).trace ∧
    releases (main (env.withReleaseResults d p c f)).trace =
      (creations (main env).trace).reverse := by
  rw [releases_eq_reverse_creations, releases_eq_reverse_creations,
    creations_withReleaseResults]
  exact ⟨rfl, rfl⟩

/-- C6 (as stated, refuted): with every setup step succeeding and
`ibv_dereg_mr` returning the error 22, `main` still returns 0; so it is not
the case that every run in which all setup steps succeed and some release call
reports an error returns a non-zero code. -/
theorem main_does_not_surface_release_errors :
    ((creations (main envDeregFails).trace).map Prod.fst = acquisitionOrder ∧
      Event.ibv_dereg_mr 500 22 ∈ (main envDeregFails).trace ∧
      (Event.ibv_dereg_mr 500 22).releaseFailed = true ∧
      (main envDeregFails).exit = 0) ∧
    ¬ (∀ env : Env, (creations (main env).trace).map Prod.fst = acquisitionOrder →
        (∃ e ∈ (main env).trace, e.releaseFailed = true) → (main env).exit ≠ 0) := by
  refine ⟨by decide, fun h => ?_⟩
  exact h envDeregFails (by decide) ⟨Event.ibv_dereg_mr 500 22, by decide, by decide⟩ (by decide)

/-- C6 (amended): `main` does not inspect what the release calls return.
Whenever all five setup steps succeed, `main` returns 0, and it still returns
0 when the results of the release calls are replaced by any others, errors
included. -/
theorem main_exit_ignores_release_results (env : Env)
    (hsetup : (creations (main env).trace).map Prod.fst = acquisitionOrder) :
    (main env).exit = 0 ∧
    ∀ (d p c : Handle → Int) (f : Handle → Nat),
      (main (env.withReleaseResults d p c f)).exit = 0 := by
  have hz : ∀ env : Env, (creations (main env).trace).map Prod.fst = acquisitionOrder →
      (main env).exit = 0 := by
    intro env hs
    rcases main_cases env with ⟨_, _, he, _, h⟩ | ⟨_, _, _, h⟩ | ⟨_, _, _, _, _, h⟩ |
      ⟨_, _, _, _, _, _, _, h⟩ | ⟨_, _, _, _, _, _, _, _, _, h⟩ | ⟨_, _, _, _, _, _, _, h⟩ <;>
    simp [h, creations, Event.created, acquisitionOrder, EXIT_SUCCESS, *] at hs ⊢
  refine ⟨hz env hsetup, fun d p c f => hz _ ?_⟩
  rw [creations_withReleaseResults]
  exact hsetup

theorem main_exit_ignores_release_results_witness :
    (creations (main envReleaseFails).trace).map Prod.fst = acquisitionOrder ∧
    (∃ e ∈ (main envReleaseFails).trace, e.releaseFailed = true) ∧
    (main envReleaseFails).exit = 0 :=
  ⟨by decide, ⟨Event.cudaFree 4096 1, by decide, by decide⟩,
    (main_exit_ignores_release_results envReleaseFails (by decide)).1⟩

/-- C8: every registration request in a run of `main` covers exactly the
buffer `main` allocated: its address is the pointer the successful GPU
allocation of that run produced, its length is the allocated length
`GPU_BUFFER_SIZE` = 1024, and its access word is local-write | remote-write,
whose set of access bits is exactly these two; so remote-write is never
requested without local-write.  The run contains that one registration
request and no other. -/
theorem main_registers_exactly_its_buffer (env : Env) (pd addr len access : Nat)
    (res : Option Mr) (h : Event.ibv_reg_mr pd addr len access res ∈ (main env).trace) :
    Event.cudaMalloc len cudaSuccess addr ∈ (main env).trace ∧
    env.cudaMalloc GPU_BUFFER_SIZE = (cudaSuccess, addr) ∧
    len = GPU_BUFFER_SIZE ∧ len = 1024 ∧
    access = IBV_ACCESS_LOCAL_WRITE ||| IBV_ACCESS_REMOTE_WRITE ∧
    accessFlags access = [IBV_ACCESS_LOCAL_WRITE, IBV_ACCESS_REMOTE_WRITE] ∧
    (access &&& IBV_ACCESS_REMOTE_WRITE ≠ 0 → access &&& IBV_ACCESS_LOCAL_WRITE ≠ 0) ∧
    ((main env).trace.filter (fun e => e.attempts = some .mr)).length = 1 := by
  rcases main_cases env with ⟨_, _, he, _, hm⟩ | ⟨_, _, hc, hm⟩ | ⟨_, _, _, hc, _, hm⟩ |
    ⟨_, _, _, _, _, hc, _, hm⟩ | ⟨_, _, _, _, _, _, _, hc, _, hm⟩ |
    ⟨_, _, _, _, _, hc, _, hm⟩ <;>
  rw [hm] at h ⊢ <;> simp at h <;>
  obtain ⟨rfl, rfl, rfl, rfl, rfl⟩ := h <;>
  refine ⟨by simp, hc, rfl, rfl, rfl, by decide, by decide, ?_⟩ <;>
  simp [Event.attempts, List.filter_cons]

theorem main_registers_exactly_its_buffer_witness :
    Event.cudaMalloc 1024 cudaSuccess 4096 ∈ (main envOk).trace ∧
    envOk.cudaMalloc GPU_BUFFER_SIZE = (cudaSuccess, 4096) ∧
    (1024 : Nat) = GPU_BUFFER_SIZE ∧ (1024 : Nat) = 1024 ∧
    3 = IBV_ACCESS_LOCAL_WRITE ||| IBV_ACCESS_REMOTE_WRITE ∧
    accessFlags 3 = [IBV_ACCESS_LOCAL_WRITE, IBV_ACCESS_REMOTE_WRITE] ∧
    (3 &&& IBV_ACCESS_REMOTE_WRITE ≠ 0 → 3 &&& IBV_ACCESS_LOCAL_WRITE ≠ 0) ∧
    ((main envOk).trace.filter (fun e => e.attempts = some .mr)).length = 1 :=
  main_registers_exactly_its_buffer envOk 400 4096 1024 3 (some ⟨500, 17, 18⟩) (by decide)

theorem uses_are_live (env : Env) :
    eachSplit (fun pre e _ =>
      (∀ p ∈ e.usesHandles, p ∈ liveAfter pre) ∧
      (∀ k ∈ e.usesKinds, k ∈ (liveAfter pre).map Prod.fst)) [] (main env).trace := by
  rcases main_cases env with ⟨_, _, he, _, h⟩ | ⟨_, _, _, h⟩ | ⟨_, _, _, _, _, h⟩ |
    ⟨_, _, _, _, _, _, _, h⟩ | ⟨_, _, _, _, _, _, _, _, _, h⟩ | ⟨_, _, _, _, _, _, _, h⟩ <;>
  rw [h] <;> dsimp only <;>
  simp only [eachSplit, List.nil_append, List.cons_append, and_true] <;>
  and_intros <;>
  simp [Event.usesHandles, Event.usesKinds, liveAfter, creations, releases, Event.created,
    Event.released, List.filter_cons]

/-- C9: in every run of `main`, at each step, every handle the step passes
to a library call or reads through denotes a resource that an earlier step
created successfully and that no earlier step released: the read of
`dev_list[0]` and `ibv_open_device` happen while the device list exists,
`ibv_alloc_pd` gets an open context, `ibv_reg_mr` a live protection domain and
a live GPU buffer, `mr->rkey` is read from a live registration, and every
release call is applied to a live resource. -/
theorem main_uses_only_live_handles (env : Env) (pre : List Event) (e : Event)
    (post : List Event) (h : (main env).trace = pre ++ e :: post) :
    (∀ p ∈ e.usesHandles, p ∈ liveAfter pre) ∧
    (∀ k ∈ e.usesKinds, k ∈ (liveAfter pre).map Prod.fst) := by
  have key := eachSplit_sound _ [] (uses_are_live env) pre e post h
  simpa using key

theorem main_uses_only_live_handles_witness :
    (∀ p ∈ (Event.ibv_reg_mr 400 4096 1024 3 (some ⟨500, 17, 18⟩)).usesHandles,
      p ∈ liveAfter [.cudaMalloc 1024 0 4096, .ibv_get_device_list (some ⟨100, [200]⟩),
        .load_dev_list 100 0, .ibv_open_device (some 200) (some 300),
        .ibv_alloc_pd 300 (some 400)]) ∧
    (∀ k ∈ (Event.ibv_reg_mr 400 4096 1024 3 (some ⟨500, 17, 18⟩)).usesKinds,
      k ∈ (liveAfter [.cudaMalloc 1024 0 4096, .ibv_get_device_list (some ⟨100, [200]⟩),
        .load_dev_list 100 0, .ibv_open_device (some 200) (some 300),
        .ibv_alloc_pd 300 (some 400)]).map Prod.fst) :=
  main_uses_only_live_handles envOk
    [.cudaMalloc 1024 0 4096, .ibv_get_device_list (some ⟨100, [200]⟩),
      .load_dev_list 100 0, .ibv_open_device (some 200) (some 300),
      .ibv_alloc_pd 300 (some 400)]
    (.ibv_reg_mr 400 4096 1024 3 (some ⟨500, 17, 18⟩))
    [.load_rkey 500, .printf 18 4096, .ibv_dereg_mr 500 0, .ibv_dealloc_pd 400 0,
      .ibv_close_device 300 0, .ibv_free_device_list 100, .cudaFree 4096 0]
    (by decide)

/-- C10 (violated by the code): when device discovery returns a non-null
list without any device, `dev_list[0]` is the NULL terminator and `main`
passes it to `ibv_open_device`: the run contains the call
`ibv_open_device(NULL)`, whose argument is no element of the list.  For a
list with at least one device the argument is the first device of the list. -/
theorem main_opens_terminator_of_empty_list :
    (envNoDevice.ibv_get_device_list = some ⟨100, []⟩ ∧
      DeviceList.index ⟨100, []⟩ 0 = none ∧
      Event.ibv_open_device none none ∈ (main envNoDevice).trace ∧
      (main envNoDevice).trace =
        [.cudaMalloc 1024 0 4096, .ibv_get_device_list (some ⟨100, []⟩), .load_dev_list 100 0,
         .ibv_open_device none none, .stderr "Couldn't open device\n",
         .ibv_free_device_list 100, .cudaFree 4096 0]) ∧
    ∀ (env : Env) (l : DeviceList) (dev res : Option Handle),
      env.ibv_get_device_list = some l → Event.ibv_open_device dev res ∈ (main env).trace →
        dev = l.index 0 ∧ (l.devices = [] → dev = none) ∧
        (l.devices ≠ [] → ∃ d ∈ l.devices, dev = some d) := by
  refine ⟨by decide, ?_⟩
  intro env l dev res hl hmem
  have hidx : (l.devices = [] → l.index 0 = none) ∧
      (l.devices ≠ [] → ∃ d ∈ l.devices, l.index 0 = some d) := by
    cases hd : l.devices with
    | nil => simp [DeviceList.index, DeviceList.slots, hd]
    | cons d ds => simp [DeviceList.index, DeviceList.slots, hd]
  rcases main_cases env with ⟨_, _, he, _, h⟩ | ⟨_, _, _, h⟩ | ⟨_, _, _, _, hl2, h⟩ |
    ⟨_, _, _, _, _, _, hl2, h⟩ | ⟨_, _, _, _, _, _, _, _, hl2, h⟩ |
    ⟨_, _, _, _, _, _, hl2, h⟩ <;>
  rw [h] at hmem <;> simp at hmem <;>
  · rw [hl] at hl2
    cases hl2
    obtain ⟨rfl, _⟩ := hmem
    exact ⟨rfl, hidx⟩

/-- C7: a post on a queue pair whose state is RESET, INIT, READY_TO_RECEIVE
or ERROR is rejected with the precondition failure, and the queue pair is left
as it was: no work request is added to those handed to the adapter. -/
theorem post_write_rejected_unless_ready (qp : QueuePair) (request_id : Nat)
    (local_registration : MemoryRegistration) (local_offset length : Nat)
    (remote : ConnectionRecord)
    (h : qp.state ∈ [QpState.RESET, QpState.INIT, QpState.READY_TO_RECEIVE, QpState.ERROR]) :
    (post_write qp request_id local_registration local_offset length remote).1 =
      .error .not_ready_to_send ∧
    (post_write qp request_id local_registration local_offset length remote).2 = qp ∧
    (post_write qp request_id local_registration local_offset length remote).2.outstanding =
      qp.outstanding := by
  have hne : qp.state ≠ .READY_TO_SEND := by
    intro heq
    rw [heq] at h
    exact absurd h (by decide)
  simp [post_write, hne]

theorem post_write_rejected_unless_ready_witness :
    (post_write ⟨7, .INIT, 4, []⟩ 1 ⟨17, 18, 4096, 1024⟩ 0 1024 ⟨9, 1, 0, 28, 8192, 1024⟩).1 =
      .error .not_ready_to_send ∧
    (post_write ⟨7, .INIT, 4, []⟩ 1 ⟨17, 18, 4096, 1024⟩ 0 1024 ⟨9, 1, 0, 28, 8192, 1024⟩).2 =
      ⟨7, .INIT, 4, []⟩ ∧
    (post_write ⟨7, .INIT, 4, []⟩ 1 ⟨17, 18, 4096, 1024⟩ 0 1024
      ⟨9, 1, 0, 28, 8192, 1024⟩).2.outstanding = [] :=
  post_write_rejected_unless_ready ⟨7, .INIT, 4, []⟩ 1 ⟨17, 18, 4096, 1024⟩ 0 1024
    ⟨9, 1, 0, 28, 8192, 1024⟩ (by decide)

/-- The model of `post_write` does accept a post in READY_TO_SEND that is
within bounds (the 1024-byte scenario of the spec), and rejects the 2048-byte
one. -/
theorem post_write_scenarios :
    (post_write ⟨7, .READY_TO_SEND, 4, []⟩ 1 ⟨17, 18, 4096, 1024⟩ 0 1024
      ⟨9, 1, 0, 28, 8192, 1024⟩).1 = .ok () ∧
    (post_write ⟨7, .READY_TO_SEND, 4, []⟩ 1 ⟨17, 18, 4096, 1024⟩ 0 2048
      ⟨9, 1, 0, 28, 8192, 1024⟩).1 = .error .exceeds_local_registration := by
  constructor <;> simp [post_write]

end GpuDirect
